import Mathlib

/-!
Verification of the Reality Check financial-feasibility engine
(`backend/app/services/reality_calculator.py`).

The engine is embedded shallowly: Python integers become `ℤ`, Python float
arithmetic on exact decimal inputs becomes exact rational arithmetic on `ℚ`,
and Python `int(x)` (truncation toward zero) becomes `pyInt`.  The
presentation-only parts of the source (message strings interpolating
formatted numbers, the `created_at` timestamp) are not part of the
algorithm and are omitted; risk items are modelled by their severity tag
and title, which identify them uniquely.
-/

namespace RealCare

/-- Python `int(x)` applied to a rational: truncation toward zero. -/
def pyInt (q : ℚ) : ℤ := if q < 0 then ⌈q⌉ else ⌊q⌋

/-- Banker's rounding of a rational to the nearest integer (ties to even),
the rounding mode of Python 3 `round`. -/
def roundHalfEven (q : ℚ) : ℤ :=
  if q - ⌊q⌋ < 1/2 then ⌊q⌋
  else if 1/2 < q - ⌊q⌋ then ⌊q⌋ + 1
  else if ⌊q⌋ % 2 = 0 then ⌊q⌋ else ⌊q⌋ + 1

/-- Python `round(x, 2)`: round to two decimal places, ties to even. -/
def round2 (q : ℚ) : ℚ := (roundHalfEven (q * 100) : ℚ) / 100

/-- Region profile: entry of `REGION_CONFIG` in the source. -/
structure RegionConfig where
  name : String
  speculative : Bool
  adjusted : Bool
deriving DecidableEq

/-- The static `REGION_CONFIG` table of the source, key by key. -/
def REGION_CONFIG : List (String × RegionConfig) :=
  [ (("gangnam"), ⟨("Gangnam-gu"), true, true⟩)
  , (("seocho"), ⟨("Seocho-gu"), true, true⟩)
  , (("songpa"), ⟨("Songpa-gu"), true, true⟩)
  , (("yongsan"), ⟨("Yongsan-gu"), true, true⟩)
  , (("mapo"), ⟨("Mapo-gu"), false, true⟩)
  , (("seongdong"), ⟨("Seongdong-gu"), false, true⟩)
  , (("gwangjin"), ⟨("Gwangjin-gu"), false, true⟩)
  , (("dongdaemun"), ⟨("Dongdaemun-gu"), false, true⟩)
  , (("junggu"), ⟨("Jung-gu"), false, true⟩)
  , (("jongrogu"), ⟨("Jongro-gu"), false, true⟩)
  , (("nowon"), ⟨("Nowon-gu"), false, false⟩)
  , (("dobong"), ⟨("Dobong-gu"), false, false⟩)
  , (("gangbuk"), ⟨("Gangbuk-gu"), false, false⟩) ]

/-- `DEFAULT_REGION` of the source: profile for unknown regions. -/
def DEFAULT_REGION : RegionConfig := ⟨("Other"), false, false⟩

/-- `REGION_CONFIG.get(region, DEFAULT_REGION)` of the source. -/
def region_config (region : String) : RegionConfig :=
  (REGION_CONFIG.lookup region).getD DEFAULT_REGION

/-- `get_ltv_limit` of the source. -/
def get_ltv_limit (rc : RegionConfig) (is_first_home : Bool) (house_count : ℤ) : ℤ :=
  if rc.speculative then
    if is_first_home then 50
    else if house_count = 1 then 30
    else 0
  else if rc.adjusted then
    if is_first_home then 70
    else if house_count = 1 then 60
    else 30
  else 70

/-- `calculate_dsr` of the source. -/
def calculate_dsr (annual_income : ℤ) (monthly_debt : ℤ) : ℚ :=
  let monthly_income : ℚ := (annual_income : ℚ) / 12
  if monthly_income = 0 then 100
  else min ((monthly_debt : ℚ) / monthly_income * 100) 100

/-- `calculate_monthly_payment` of the source (defaults: 4.5 % rate, 30 years). -/
def calculate_monthly_payment (loan_amount : ℤ) (interest_rate : ℚ := 4.5)
    (years : ℕ := 30) : ℤ :=
  if loan_amount ≤ 0 then 0
  else
    let monthly_rate := interest_rate / 100 / 12
    let n_payments := years * 12
    if monthly_rate = 0 then pyInt ((loan_amount : ℚ) / (n_payments : ℚ))
    else pyInt ((loan_amount : ℚ) * (monthly_rate * (1 + monthly_rate) ^ n_payments)
      / ((1 + monthly_rate) ^ n_payments - 1))

/-- `get_grade` of the source. -/
def get_grade (score : ℤ) : String :=
  if 80 ≤ score then ("A")
  else if 60 ≤ score then ("B")
  else if 40 ≤ score then ("C")
  else if 20 ≤ score then ("D")
  else ("F")

/-- `RealityCheckInput` of the endpoint schema (amounts in whole KRW). -/
structure RealityCheckInput where
  region : String
  target_price : ℤ
  annual_income : ℤ
  cash_available : ℤ
  existing_debt : ℤ
  is_first_home : Bool
  house_count : ℤ
deriving DecidableEq

/-- Local `max_ltv` of `calculate_reality_score`. -/
def max_ltv (input : RealityCheckInput) : ℤ :=
  get_ltv_limit (region_config input.region) input.is_first_home input.house_count

/-- Local `max_loan_ltv` of `calculate_reality_score`:
`int(target_price * max_ltv / 100)`. -/
def max_loan_ltv (input : RealityCheckInput) : ℤ :=
  pyInt ((input.target_price : ℚ) * (max_ltv input : ℚ) / 100)

/-- Local `max_monthly_for_dsr`:
`(annual_income / 12) * (dsr_limit / 100) - existing_debt` with `dsr_limit = 40`. -/
def max_monthly_for_dsr (input : RealityCheckInput) : ℚ :=
  ((input.annual_income : ℚ) / 12) * ((40 : ℚ) / 100) - (input.existing_debt : ℚ)

/-- Local `max_loan_dsr`:
`int(max_monthly_for_dsr / 0.005) if max_monthly_for_dsr > 0 else 0`. -/
def max_loan_dsr (input : RealityCheckInput) : ℤ :=
  if 0 < max_monthly_for_dsr input then pyInt (max_monthly_for_dsr input / 0.005) else 0

/-- Local `max_loan`: `max(0, min(max_loan_ltv, max_loan_dsr))`. -/
def max_loan (input : RealityCheckInput) : ℤ :=
  max 0 (min (max_loan_ltv input) (max_loan_dsr input))

/-- Local `required_cash`: `target_price - max_loan`. -/
def required_cash (input : RealityCheckInput) : ℤ :=
  input.target_price - max_loan input

/-- Local `cash_gap`: `max(0, required_cash - cash_available)`. -/
def cash_gap (input : RealityCheckInput) : ℤ :=
  max 0 (required_cash input - input.cash_available)

/-- Local `monthly_repayment`: `calculate_monthly_payment(max_loan)`. -/
def monthly_repayment (input : RealityCheckInput) : ℤ :=
  calculate_monthly_payment (max_loan input)

/-- Local `total_monthly_debt`: `monthly_repayment + existing_debt`. -/
def total_monthly_debt (input : RealityCheckInput) : ℤ :=
  monthly_repayment input + input.existing_debt

/-- Local `dsr_percentage`: `calculate_dsr(annual_income, total_monthly_debt)`. -/
def dsr_percentage (input : RealityCheckInput) : ℚ :=
  calculate_dsr input.annual_income (total_monthly_debt input)

/-- Local `ltv_utilization`:
`(max_loan_ltv / target_price * 100) if target_price > 0 else 0`. -/
def ltv_utilization (input : RealityCheckInput) : ℚ :=
  if 0 < input.target_price then
    (max_loan_ltv input : ℚ) / (input.target_price : ℚ) * 100
  else 0

/-- Local `ltv_score`: `min(25, int(ltv_utilization / 4))`. -/
def ltv_score (input : RealityCheckInput) : ℤ :=
  min 25 (pyInt (ltv_utilization input / 4))

/-- Local `dsr_headroom`: `max(0, 40 - dsr_percentage)`. -/
def dsr_headroom (input : RealityCheckInput) : ℚ :=
  max 0 (40 - dsr_percentage input)

/-- Local `dsr_score`: `min(25, int(dsr_headroom))`. -/
def dsr_score (input : RealityCheckInput) : ℤ :=
  min 25 (pyInt (dsr_headroom input))

/-- Local `coverage`: `cash_available / required_cash if required_cash > 0 else 1`. -/
def coverage (input : RealityCheckInput) : ℚ :=
  if 0 < required_cash input then
    (input.cash_available : ℚ) / (required_cash input : ℚ)
  else 1

/-- Local `cash_gap_score`:
`25 if cash_gap == 0 else min(25, int(coverage * 25))`. -/
def cash_gap_score (input : RealityCheckInput) : ℤ :=
  if cash_gap input = 0 then 25 else min 25 (pyInt (coverage input * 25))

/-- Local `price_to_income`:
`target_price / annual_income if annual_income > 0 else 20`. -/
def price_to_income (input : RealityCheckInput) : ℚ :=
  if 0 < input.annual_income then
    (input.target_price : ℚ) / (input.annual_income : ℚ)
  else 20

/-- Local `stability_score` with its three branches. -/
def stability_score (input : RealityCheckInput) : ℤ :=
  if price_to_income input ≤ 5 then 25
  else if price_to_income input ≤ 10 then
    pyInt (25 - (price_to_income input - 5) * 3)
  else max 0 (pyInt (25 - (price_to_income input - 5) * 3))

/-- Local `total_score`: the unclamped sum of the four sub-scores. -/
def total_score (input : RealityCheckInput) : ℤ :=
  ltv_score input + dsr_score input + cash_gap_score input + stability_score input

/-- A risk item, identified by severity tag and title (messages and
suggestions are presentation strings carrying no further branching). -/
structure RiskItem where
  ty : String
  title : String
deriving DecidableEq

/-- The `risks` list built by `calculate_reality_score`, in source order:
the `if/elif` DSR pair, then cash shortfall, no-loan, speculative-zone and
success items. -/
def risks (input : RealityCheckInput) : List RiskItem :=
  (if 40 < dsr_percentage input then [⟨("critical"), ("DSR Limit Exceeded")⟩]
   else if 35 < dsr_percentage input then [⟨("warning"), ("DSR Near Limit")⟩]
   else [])
  ++ (if 0 < cash_gap input then [⟨("critical"), ("Cash Shortfall")⟩] else [])
  ++ (if max_ltv input = 0 then [⟨("critical"), ("No Loan Available")⟩] else [])
  ++ (if (region_config input.region).speculative then
        [⟨("info"), ("Speculative Overheated Zone")⟩] else [])
  ++ (if 70 ≤ total_score input then [⟨("success"), ("Good Financial Position")⟩] else [])

/-- `ScoreBreakdown` of the endpoint schema. -/
structure ScoreBreakdown where
  ltv_score : ℤ
  dsr_score : ℤ
  cash_gap_score : ℤ
  stability_score : ℤ
deriving DecidableEq

/-- `FinancialAnalysis` of the endpoint schema. -/
structure FinancialAnalysis where
  target_price : ℤ
  max_loan_by_ltv : ℤ
  max_loan_by_dsr : ℤ
  max_loan_amount : ℤ
  required_cash : ℤ
  gap_amount : ℤ
  monthly_repayment : ℤ
  dsr_percentage : ℚ
  applicable_ltv : ℤ
deriving DecidableEq

/-- `RegionInfo` of the endpoint schema. -/
structure RegionInfo where
  name : String
  is_speculative_zone : Bool
  is_adjusted_zone : Bool
  max_ltv : ℤ
deriving DecidableEq

/-- `RealityCheckResult` of the endpoint schema (`created_at`, a wall-clock
timestamp attached at the boundary, is not part of the algorithm). -/
structure RealityCheckResult where
  score : ℤ
  grade : String
  breakdown : ScoreBreakdown
  analysis : FinancialAnalysis
  risks : List RiskItem
  region : RegionInfo
deriving DecidableEq

/-- `calculate_reality_score` of the source, assembled from the locals above. -/
def calculate_reality_score (input : RealityCheckInput) : RealityCheckResult :=
  { score := total_score input
  , grade := get_grade (total_score input)
  , breakdown :=
    { ltv_score := ltv_score input
    , dsr_score := dsr_score input
    , cash_gap_score := cash_gap_score input
    , stability_score := stability_score input }
  , analysis :=
    { target_price := input.target_price
    , max_loan_by_ltv := max_loan_ltv input
    , max_loan_by_dsr := max_loan_dsr input
    , max_loan_amount := max_loan input
    , required_cash := required_cash input
    , gap_amount := cash_gap input
    , monthly_repayment := monthly_repayment input
    , dsr_percentage := round2 (dsr_percentage input)
    , applicable_ltv := max_ltv input }
  , risks := risks input
  , region :=
    { name := (region_config input.region).name
    , is_speculative_zone := (region_config input.region).speculative
    , is_adjusted_zone := (region_config input.region).adjusted
    , max_ltv := max_ltv input } }

/-- `ScenarioCompareInput` of the endpoint schema (`interest_rate_change` is
accepted but unused by the algorithm, as in the source). -/
structure ScenarioCompareInput where
  base : RealityCheckInput
  wait_years : ℕ
  price_appreciation : ℚ
  income_growth : ℚ
  savings_rate : ℚ
  interest_rate_change : ℚ
deriving DecidableEq

/-- Local `future_price` of `compare_scenarios`:
`int(target_price * (1 + price_appreciation / 100) ** wait_years)`. -/
def future_price (s : ScenarioCompareInput) : ℤ :=
  pyInt ((s.base.target_price : ℚ) * (1 + s.price_appreciation / 100) ^ s.wait_years)

/-- Local `future_income` of `compare_scenarios`. -/
def future_income (s : ScenarioCompareInput) : ℤ :=
  pyInt ((s.base.annual_income : ℚ) * (1 + s.income_growth / 100) ^ s.wait_years)

/-- Local `monthly_savings`: `int((annual_income / 12) * (savings_rate / 100))`. -/
def monthly_savings (s : ScenarioCompareInput) : ℤ :=
  pyInt (((s.base.annual_income : ℚ) / 12) * (s.savings_rate / 100))

/-- Local `additional_savings`: `monthly_savings * 12 * wait_years`. -/
def additional_savings (s : ScenarioCompareInput) : ℤ :=
  monthly_savings s * 12 * (s.wait_years : ℤ)

/-- Local `future_cash`: `cash_available + additional_savings`. -/
def future_cash (s : ScenarioCompareInput) : ℤ :=
  s.base.cash_available + additional_savings s

/-- The projected `RealityCheckInput` passed to the second pipeline run. -/
def later_input (s : ScenarioCompareInput) : RealityCheckInput :=
  { region := s.base.region
  , target_price := future_price s
  , annual_income := future_income s
  , cash_available := future_cash s
  , existing_debt := s.base.existing_debt
  , is_first_home := s.base.is_first_home
  , house_count := s.base.house_count }

/-- One scenario block of the `compare_scenarios` response. -/
structure ScenarioSummary where
  score : ℤ
  grade : String
  target_price : ℤ
  max_loan : ℤ
  monthly_payment : ℤ
  cash_gap : ℤ
deriving DecidableEq

/-- The `compare_scenarios` response: the two scenario blocks, the
`projected_savings` field of the later block, and the projection block. -/
structure CompareResult where
  buy_now : ScenarioSummary
  buy_later : ScenarioSummary
  projected_savings : ℤ
  wait_years : ℕ
  price_change : ℤ
  income_change : ℤ
  savings_gained : ℤ
  recommendation : String
deriving DecidableEq

/-- `compare_scenarios` of the source. -/
def compare_scenarios (s : ScenarioCompareInput) : CompareResult :=
  let buy_now := calculate_reality_score s.base
  let buy_later := calculate_reality_score (later_input s)
  { buy_now :=
    { score := buy_now.score
    , grade := buy_now.grade
    , target_price := s.base.target_price
    , max_loan := buy_now.analysis.max_loan_amount
    , monthly_payment := buy_now.analysis.monthly_repayment
    , cash_gap := buy_now.analysis.gap_amount }
  , buy_later :=
    { score := buy_later.score
    , grade := buy_later.grade
    , target_price := future_price s
    , max_loan := buy_later.analysis.max_loan_amount
    , monthly_payment := buy_later.analysis.monthly_repayment
    , cash_gap := buy_later.analysis.gap_amount }
  , projected_savings := additional_savings s
  , wait_years := s.wait_years
  , price_change := future_price s - s.base.target_price
  , income_change := future_income s - s.base.annual_income
  , savings_gained := additional_savings s
  , recommendation :=
      if buy_later.score ≤ buy_now.score then ("buy_now") else ("wait") }

/-- Guarded rational division: `none` exactly on a zero denominator.  Used
by the `…Checked` variants below, which replace every division whose
denominator is not a nonzero constant by `divChecked`, keeping the source's
own guard structure. -/
def divChecked (a b : ℚ) : Option ℚ :=
  if b = 0 then none else some (a / b)

/-- `calculate_dsr` with its variable-denominator division checked. -/
def calculate_dsrChecked (annual_income : ℤ) (monthly_debt : ℤ) : Option ℚ :=
  let monthly_income : ℚ := (annual_income : ℚ) / 12
  if monthly_income = 0 then some 100
  else do
    let d ← divChecked (monthly_debt : ℚ) monthly_income
    some (min (d * 100) 100)

/-- `calculate_monthly_payment` with its variable-denominator divisions
checked (`n_payments` in the zero-rate branch, the annuity denominator
otherwise). -/
def calculate_monthly_paymentChecked (loan_amount : ℤ) (interest_rate : ℚ := 4.5)
    (years : ℕ := 30) : Option ℤ :=
  if loan_amount ≤ 0 then some 0
  else
    let monthly_rate := interest_rate / 100 / 12
    let n_payments := years * 12
    if monthly_rate = 0 then do
      let q ← divChecked (loan_amount : ℚ) (n_payments : ℚ)
      some (pyInt q)
    else do
      let q ← divChecked ((loan_amount : ℚ) * (monthly_rate * (1 + monthly_rate) ^ n_payments))
        ((1 + monthly_rate) ^ n_payments - 1)
      some (pyInt q)

/-- `calculate_reality_score` with every division by a non-constant
denominator checked; the source's own guards (`monthly_income == 0`,
`target_price > 0`, `required_cash > 0`, `annual_income > 0`) are kept in
place, so a `none` could only arise from an unguarded division. -/
def calculate_reality_scoreChecked (input : RealityCheckInput) : Option RealityCheckResult := do
  let repay ← calculate_monthly_paymentChecked (max_loan input)
  let dsr ← calculate_dsrChecked input.annual_income (repay + input.existing_debt)
  let util ←
    if 0 < input.target_price then do
      let u ← divChecked (max_loan_ltv input : ℚ) (input.target_price : ℚ)
      some (u * 100)
    else some 0
  let ltv_s := min 25 (pyInt (util / 4))
  let dsr_s := min 25 (pyInt (max 0 (40 - dsr)))
  let cash_s ←
    if cash_gap input = 0 then some 25
    else do
      let cov ←
        if 0 < required_cash input then
          divChecked (input.cash_available : ℚ) (required_cash input : ℚ)
        else some 1
      some (min 25 (pyInt (cov * 25)))
  let pti ←
    if 0 < input.annual_income then
      divChecked (input.target_price : ℚ) (input.annual_income : ℚ)
    else some 20
  let stab_s :=
    if pti ≤ 5 then 25
    else if pti ≤ 10 then pyInt (25 - (pti - 5) * 3)
    else max 0 (pyInt (25 - (pti - 5) * 3))
  let total := ltv_s + dsr_s + cash_s + stab_s
  some
    { score := total
    , grade := get_grade total
    , breakdown :=
      { ltv_score := ltv_s
      , dsr_score := dsr_s
      , cash_gap_score := cash_s
      , stability_score := stab_s }
    , analysis :=
      { target_price := input.target_price
      , max_loan_by_ltv := max_loan_ltv input
      , max_loan_by_dsr := max_loan_dsr input
      , max_loan_amount := max_loan input
      , required_cash := required_cash input
      , gap_amount := cash_gap input
      , monthly_repayment := repay
      , dsr_percentage := round2 dsr
      , applicable_ltv := max_ltv input }
    , risks := risks input
    , region :=
      { name := (region_config input.region).name
      , is_speculative_zone := (region_config input.region).speculative
      , is_adjusted_zone := (region_config input.region).adjusted
      , max_ltv := max_ltv input } }

/-- The LTV decision table exactly as the specification words it:
speculative zone: first home 50, one existing home 30, otherwise 0;
adjusted zone: first home 70, one home 60, otherwise 30; unregulated: 70. -/
def max_ltv_spec_table (zone_speculative zone_adjusted first_home : Bool)
    (house_count : ℤ) : ℤ :=
  if zone_speculative then
    if first_home then 50 else if house_count = 1 then 30 else 0
  else if zone_adjusted then
    if first_home then 70 else if house_count = 1 then 60 else 30
  else 70

lemma pyInt_eq_floor {q : ℚ} (h : 0 ≤ q) : pyInt q = ⌊q⌋ := by
  unfold pyInt
  exact if_neg (not_lt.mpr h)

lemma pyInt_nonneg {q : ℚ} (h : 0 ≤ q) : 0 ≤ pyInt q := by
  rw [pyInt_eq_floor h]
  exact Int.floor_nonneg.mpr h

lemma pyInt_intCast (n : ℤ) : pyInt (n : ℚ) = n := by
  unfold pyInt
  split
  · exact Int.ceil_intCast n
  · exact Int.floor_intCast n

lemma cast_pyInt_le {q : ℚ} (h : 0 ≤ q) : (pyInt q : ℚ) ≤ q := by
  rw [pyInt_eq_floor h]
  exact Int.floor_le q

lemma pyInt_le_intCast {q : ℚ} {n : ℤ} (h : q ≤ (n : ℚ)) : pyInt q ≤ n := by
  unfold pyInt
  split
  · exact Int.ceil_le.mpr h
  · exact (Int.floor_mono h).trans_eq (Int.floor_intCast n)

lemma pyInt_le_of_lt_add_one {q : ℚ} {n : ℤ} (hn : 0 ≤ n) (h : q < (n : ℚ) + 1) :
    pyInt q ≤ n := by
  unfold pyInt
  split
  · next hq =>
    calc ⌈q⌉ ≤ ⌈(0 : ℚ)⌉ := Int.ceil_mono hq.le
    _ = 0 := by simp
    _ ≤ n := hn
  · refine Int.lt_add_one_iff.mp ?_
    refine Int.floor_lt.mpr ?_
    push_cast
    exact h

lemma pyInt_mono {a b : ℚ} (h : a ≤ b) : pyInt a ≤ pyInt b := by
  unfold pyInt
  split
  · next ha =>
    split
    · exact Int.ceil_mono h
    · next hb =>
      calc ⌈a⌉ ≤ ⌈(0 : ℚ)⌉ := Int.ceil_mono ha.le
      _ = 0 := by simp
      _ ≤ ⌊b⌋ := Int.floor_nonneg.mpr (not_lt.mp hb)
  · next ha =>
    split
    · next hb => exact absurd (lt_of_le_of_lt h hb) ha
    · exact Int.floor_mono h

lemma pyInt_eq_of_bounds {q : ℚ} {n : ℤ} (hn : 0 ≤ n) (h1 : (n : ℚ) ≤ q)
    (h2 : q < (n : ℚ) + 1) : pyInt q = n := by
  have h0 : (0 : ℚ) ≤ q := le_trans (by exact_mod_cast hn) h1
  rw [pyInt_eq_floor h0]
  rw [Int.floor_eq_iff]
  exact ⟨h1, h2⟩

lemma get_ltv_limit_cases (rc : RegionConfig) (f : Bool) (hc : ℤ) :
    get_ltv_limit rc f hc = 0 ∨ get_ltv_limit rc f hc = 30 ∨
    get_ltv_limit rc f hc = 50 ∨ get_ltv_limit rc f hc = 60 ∨
    get_ltv_limit rc f hc = 70 := by
  unfold get_ltv_limit
  split_ifs <;> simp

lemma get_ltv_limit_nonneg (rc : RegionConfig) (f : Bool) (hc : ℤ) :
    0 ≤ get_ltv_limit rc f hc := by
  rcases get_ltv_limit_cases rc f hc with h | h | h | h | h <;> rw [h] <;> norm_num

lemma get_ltv_limit_le_70 (rc : RegionConfig) (f : Bool) (hc : ℤ) :
    get_ltv_limit rc f hc ≤ 70 := by
  rcases get_ltv_limit_cases rc f hc with h | h | h | h | h <;> rw [h] <;> norm_num

lemma calculate_dsr_nonneg {a d : ℤ} (ha : 0 ≤ a) (hd : 0 ≤ d) :
    0 ≤ calculate_dsr a d := by
  simp only [calculate_dsr]
  split
  · norm_num
  · refine le_min ?_ (by norm_num)
    have h1 : (0 : ℚ) ≤ (d : ℚ) := by exact_mod_cast hd
    have h2 : (0 : ℚ) ≤ (a : ℚ) := by exact_mod_cast ha
    positivity

lemma calculate_dsr_le_100 (a d : ℤ) : calculate_dsr a d ≤ 100 := by
  simp only [calculate_dsr]
  split
  · exact le_refl _
  · exact min_le_right _ _

lemma calculate_dsr_mono {a d1 d2 : ℤ} (ha : 0 ≤ a) (h : d1 ≤ d2) :
    calculate_dsr a d1 ≤ calculate_dsr a d2 := by
  simp only [calculate_dsr]
  split
  · exact le_refl _
  · next hmi =>
    have hapos : (0 : ℚ) < (a : ℚ) / 12 := by
      have h0 : (0 : ℚ) ≤ (a : ℚ) / 12 := by
        have : (0 : ℚ) ≤ (a : ℚ) := by exact_mod_cast ha
        positivity
      rcases lt_or_eq_of_le h0 with h1 | h1
      · exact h1
      · exact absurd h1.symm hmi
    refine min_le_min ?_ le_rfl
    have hdd : (d1 : ℚ) ≤ (d2 : ℚ) := by exact_mod_cast h
    have hq : (d1 : ℚ) / ((a : ℚ) / 12) ≤ (d2 : ℚ) / ((a : ℚ) / 12) :=
      (div_le_div_iff_of_pos_right hapos).mpr hdd
    exact mul_le_mul_of_nonneg_right hq (by norm_num)

lemma calculate_monthly_payment_nonneg (l : ℤ) : 0 ≤ calculate_monthly_payment l := by
  simp only [calculate_monthly_payment]
  split
  · exact le_refl 0
  · next hl =>
    have hl0 : (0 : ℚ) < (l : ℚ) := by exact_mod_cast lt_of_not_le hl
    split
    · next hr => exact absurd hr (by norm_num)
    · apply pyInt_nonneg
      have hA : (1 : ℚ) < (1 + (4.5 : ℚ) / 100 / 12) ^ (30 * 12 : ℕ) := by
        refine one_lt_pow₀ ?_ (by norm_num)
        norm_num
      have hden : (0 : ℚ) < (1 + (4.5 : ℚ) / 100 / 12) ^ (30 * 12 : ℕ) - 1 := by
        linarith
      have hnum : (0 : ℚ) ≤ (l : ℚ) *
          ((4.5 : ℚ) / 100 / 12 * (1 + (4.5 : ℚ) / 100 / 12) ^ (30 * 12 : ℕ)) := by
        have : (0 : ℚ) < (1 + (4.5 : ℚ) / 100 / 12) ^ (30 * 12 : ℕ) := by linarith
        positivity
      exact div_nonneg hnum hden.le

lemma max_ltv_nonneg (input : RealityCheckInput) : 0 ≤ max_ltv input :=
  get_ltv_limit_nonneg _ _ _

lemma max_ltv_le_70 (input : RealityCheckInput) : max_ltv input ≤ 70 :=
  get_ltv_limit_le_70 _ _ _

lemma max_loan_ltv_nonneg {input : RealityCheckInput} (hp : 0 < input.target_price) :
    0 ≤ max_loan_ltv input := by
  apply pyInt_nonneg
  have h1 : (0 : ℚ) ≤ (input.target_price : ℚ) := by exact_mod_cast hp.le
  have h2 : (0 : ℚ) ≤ (max_ltv input : ℚ) := by exact_mod_cast max_ltv_nonneg input
  positivity

lemma ltv_utilization_nonneg (input : RealityCheckInput) : 0 ≤ ltv_utilization input := by
  simp only [ltv_utilization]
  split
  · next hp =>
    have h1 : (0 : ℚ) ≤ (max_loan_ltv input : ℚ) := by exact_mod_cast max_loan_ltv_nonneg hp
    have h2 : (0 : ℚ) ≤ (input.target_price : ℚ) := by exact_mod_cast hp.le
    positivity
  · exact le_refl 0

lemma ltv_utilization_le_70 (input : RealityCheckInput) : ltv_utilization input ≤ 70 := by
  simp only [ltv_utilization]
  split
  · next hp =>
    have hp0 : (0 : ℚ) < (input.target_price : ℚ) := by exact_mod_cast hp
    have hml : (max_loan_ltv input : ℚ) ≤
        (input.target_price : ℚ) * (max_ltv input : ℚ) / 100 := by
      apply cast_pyInt_le
      have h1 : (0 : ℚ) ≤ (input.target_price : ℚ) := hp0.le
      have h2 : (0 : ℚ) ≤ (max_ltv input : ℚ) := by exact_mod_cast max_ltv_nonneg input
      positivity
    have hltv : (max_ltv input : ℚ) ≤ 70 := by exact_mod_cast max_ltv_le_70 input
    rw [div_mul_eq_mul_div, div_le_iff₀ hp0]
    nlinarith
  · norm_num

lemma ltv_score_nonneg (input : RealityCheckInput) : 0 ≤ ltv_score input := by
  refine le_min (by norm_num) (pyInt_nonneg ?_)
  have := ltv_utilization_nonneg input
  positivity

lemma ltv_score_le_17 (input : RealityCheckInput) : ltv_score input ≤ 17 := by
  refine le_trans (min_le_right _ _) ?_
  apply pyInt_le_of_lt_add_one (by norm_num)
  have := ltv_utilization_le_70 input
  push_cast
  linarith

lemma ltv_score_le_25 (input : RealityCheckInput) : ltv_score input ≤ 25 :=
  min_le_left _ _

lemma dsr_score_nonneg (input : RealityCheckInput) : 0 ≤ dsr_score input :=
  le_min (by norm_num) (pyInt_nonneg (le_max_left _ _))

lemma dsr_score_le_25 (input : RealityCheckInput) : dsr_score input ≤ 25 :=
  min_le_left _ _

lemma coverage_nonneg {input : RealityCheckInput} (hc : 0 ≤ input.cash_available) :
    0 ≤ coverage input := by
  simp only [coverage]
  split
  · next hr =>
    have h1 : (0 : ℚ) ≤ (input.cash_available : ℚ) := by exact_mod_cast hc
    have h2 : (0 : ℚ) ≤ (required_cash input : ℚ) := by exact_mod_cast hr.le
    positivity
  · norm_num

lemma cash_gap_score_nonneg {input : RealityCheckInput} (hc : 0 ≤ input.cash_available) :
    0 ≤ cash_gap_score input := by
  simp only [cash_gap_score]
  split
  · norm_num
  · refine le_min (by norm_num) (pyInt_nonneg ?_)
    have := coverage_nonneg hc
    positivity

lemma cash_gap_score_le_25 (input : RealityCheckInput) : cash_gap_score input ≤ 25 := by
  simp only [cash_gap_score]
  split
  · exact le_refl _
  · exact min_le_left _ _

lemma stability_score_nonneg (input : RealityCheckInput) : 0 ≤ stability_score input := by
  simp only [stability_score]
  split_ifs with h1 h2
  · norm_num
  · apply pyInt_nonneg
    linarith
  · exact le_max_left _ _

lemma stability_score_le_25 (input : RealityCheckInput) : stability_score input ≤ 25 := by
  simp only [stability_score]
  split_ifs with h1 h2
  · exact le_refl _
  · apply pyInt_le_intCast
    push_cast
    linarith
  · refine max_le (by norm_num) ?_
    apply pyInt_le_intCast
    push_cast
    nlinarith [lt_of_not_le h2]

lemma total_monthly_debt_nonneg {input : RealityCheckInput}
    (hd : 0 ≤ input.existing_debt) : 0 ≤ total_monthly_debt input :=
  add_nonneg (calculate_monthly_payment_nonneg _) hd

lemma dsr_percentage_nonneg {input : RealityCheckInput}
    (ha : 0 ≤ input.annual_income) (hd : 0 ≤ input.existing_debt) :
    0 ≤ dsr_percentage input :=
  calculate_dsr_nonneg ha (total_monthly_debt_nonneg hd)

lemma dsr_percentage_le_100 (input : RealityCheckInput) :
    dsr_percentage input ≤ 100 :=
  calculate_dsr_le_100 _ _

lemma roundHalfEven_nonneg {q : ℚ} (h : 0 ≤ q) : 0 ≤ roundHalfEven q := by
  have hf : 0 ≤ ⌊q⌋ := Int.floor_nonneg.mpr h
  unfold roundHalfEven
  split_ifs <;> omega

lemma roundHalfEven_le {q : ℚ} {n : ℤ} (h : q ≤ (n : ℚ)) : roundHalfEven q ≤ n := by
  have hf : ⌊q⌋ ≤ n := (Int.floor_mono h).trans_eq (Int.floor_intCast n)
  unfold roundHalfEven
  split_ifs with h1 h2 h3
  · exact hf
  · have hlt : (⌊q⌋ : ℚ) < q := by linarith [not_lt.mp h1]
    have : ⌊q⌋ < n := by
      have : (⌊q⌋ : ℚ) < (n : ℚ) := lt_of_lt_of_le hlt h
      exact_mod_cast this
    omega
  · exact hf
  · have hlt : (⌊q⌋ : ℚ) < q := by linarith [not_lt.mp h1]
    have : ⌊q⌋ < n := by
      have : (⌊q⌋ : ℚ) < (n : ℚ) := lt_of_lt_of_le hlt h
      exact_mod_cast this
    omega

lemma round2_nonneg {q : ℚ} (h : 0 ≤ q) : 0 ≤ round2 q := by
  unfold round2
  have : (0 : ℤ) ≤ roundHalfEven (q * 100) := roundHalfEven_nonneg (by positivity)
  have hc : (0 : ℚ) ≤ (roundHalfEven (q * 100) : ℚ) := by exact_mod_cast this
  positivity

lemma round2_le_100 {q : ℚ} (h : q ≤ 100) : round2 q ≤ 100 := by
  unfold round2
  have h1 : q * 100 ≤ ((10000 : ℤ) : ℚ) := by push_cast; linarith
  have h2 : roundHalfEven (q * 100) ≤ 10000 := roundHalfEven_le h1
  have hc : (roundHalfEven (q * 100) : ℚ) ≤ 10000 := by exact_mod_cast h2
  linarith

/-- A generic valid concrete input used to witness hypotheses of the
universally quantified claims. -/
def sample_input : RealityCheckInput :=
  ⟨("nowon"), 500000000, 60000000, 100000000, 0, true, 0⟩

/-- C1: for every input (with the schema invariant `target_price > 0`), the
loan ceiling is computed as `max_loan_by_ltv = floor(target_price * max_ltv
/ 100)`; the available monthly capacity is `(annual_income / 12) * 0.40 -
existing_debt` and `max_loan_by_dsr = floor(capacity / 0.005)` when that
capacity is positive, else 0; `max_loan = max(0, min(max_loan_by_ltv,
max_loan_by_dsr))`; `required_cash = target_price - max_loan`; and
`cash_gap = max(0, required_cash - cash_available)`. -/
theorem C1_loan_ceiling (input : RealityCheckInput) (hp : 0 < input.target_price) :
    max_loan_ltv input = ⌊(input.target_price : ℚ) * (max_ltv input : ℚ) / 100⌋
    ∧ max_monthly_for_dsr input
      = (input.annual_income : ℚ) / 12 * 0.40 - (input.existing_debt : ℚ)
    ∧ max_loan_dsr input
      = (if 0 < max_monthly_for_dsr input
         then ⌊max_monthly_for_dsr input / 0.005⌋ else 0)
    ∧ max_loan input = max 0 (min (max_loan_ltv input) (max_loan_dsr input))
    ∧ required_cash input = input.target_price - max_loan input
    ∧ cash_gap input = max 0 (required_cash input - input.cash_available) := by
  refine ⟨?_, ?_, ?_, rfl, rfl, rfl⟩
  · apply pyInt_eq_floor
    have h1 : (0 : ℚ) ≤ (input.target_price : ℚ) := by exact_mod_cast hp.le
    have h2 : (0 : ℚ) ≤ (max_ltv input : ℚ) := by exact_mod_cast max_ltv_nonneg input
    positivity
  · unfold max_monthly_for_dsr
    norm_num
  · unfold max_loan_dsr
    split
    · next hpos =>
      apply pyInt_eq_floor
      have : (0 : ℚ) < (0.005 : ℚ) := by norm_num
      positivity
    · rfl

/-- Witness for C1 at a concrete valid input. -/
theorem C1_loan_ceiling_witness :
    (0 : ℤ) < sample_input.target_price
    ∧ (max_loan_ltv sample_input
        = ⌊(sample_input.target_price : ℚ) * (max_ltv sample_input : ℚ) / 100⌋
      ∧ max_monthly_for_dsr sample_input
        = (sample_input.annual_income : ℚ) / 12 * 0.40 - (sample_input.existing_debt : ℚ)
      ∧ max_loan_dsr sample_input
        = (if 0 < max_monthly_for_dsr sample_input
           then ⌊max_monthly_for_dsr sample_input / 0.005⌋ else 0)
      ∧ max_loan sample_input
        = max 0 (min (max_loan_ltv sample_input) (max_loan_dsr sample_input))
      ∧ required_cash sample_input = sample_input.target_price - max_loan sample_input
      ∧ cash_gap sample_input
        = max 0 (required_cash sample_input - sample_input.cash_available)) :=
  ⟨by decide, C1_loan_ceiling sample_input (by decide)⟩

/-- C2: for every region identifier, first-home flag and house count in
0..10, the resolved max LTV follows the fixed decision table (speculative:
first home 50, one home 30, otherwise 0; adjusted: first home 70, one home
60, otherwise 30; unregulated: flat 70); an unknown region identifier
resolves to the unregulated default profile named "Other"; and region
"gangnam" with a first home and no owned house yields max LTV 50. -/
theorem C2_ltv_decision_table (r : String) (first : Bool) (hc : ℤ)
    (h0 : 0 ≤ hc) (h10 : hc ≤ 10) :
    get_ltv_limit (region_config r) first hc
      = max_ltv_spec_table (region_config r).speculative
          (region_config r).adjusted first hc
    ∧ (REGION_CONFIG.lookup r = none →
        region_config r = DEFAULT_REGION
        ∧ (region_config r).name = ("Other")
        ∧ get_ltv_limit (region_config r) first hc = 70)
    ∧ max_ltv ⟨("gangnam"), 1, 1, 0, 0, true, 0⟩ = 50 := by
  refine ⟨?_, ?_, by decide⟩
  · unfold get_ltv_limit max_ltv_spec_table
    split_ifs <;> rfl
  · intro hnone
    have hrc : region_config r = DEFAULT_REGION := by
      unfold region_config
      rw [hnone]
      rfl
    exact ⟨hrc, by rw [hrc]; rfl, by rw [hrc]; rfl⟩

/-- Witness for C2 at a concrete region, flag and house count. -/
theorem C2_ltv_decision_table_witness :
    ((0 : ℤ) ≤ 1 ∧ (1 : ℤ) ≤ 10)
    ∧ (get_ltv_limit (region_config ("mapo")) false 1
        = max_ltv_spec_table (region_config ("mapo")).speculative
            (region_config ("mapo")).adjusted false 1
      ∧ (REGION_CONFIG.lookup ("mapo") = none →
          region_config ("mapo") = DEFAULT_REGION
          ∧ (region_config ("mapo")).name = ("Other")
          ∧ get_ltv_limit (region_config ("mapo")) false 1 = 70)
      ∧ max_ltv ⟨("gangnam"), 1, 1, 0, 0, true, 0⟩ = 50) :=
  ⟨by decide, C2_ltv_decision_table ("mapo") false 1 (by decide) (by decide)⟩

/-- C3: for every input satisfying the schema invariants, each of the four
sub-scores lies in [0, 25], the total score lies in [0, 100] (from the
sub-score bounds alone, the sum being unclamped in the code), the DSR
percentage lies in [0, 100] (both before and after its two-decimal
rounding), and the resolved max LTV is one of 0, 30, 50, 60, 70. -/
theorem C3_score_bounds (input : RealityCheckInput)
    (hp : 0 < input.target_price) (ha : 0 ≤ input.annual_income)
    (hc : 0 ≤ input.cash_available) (hd : 0 ≤ input.existing_debt)
    (hh0 : 0 ≤ input.house_count) (hh10 : input.house_count ≤ 10) :
    (0 ≤ (calculate_reality_score input).breakdown.ltv_score
      ∧ (calculate_reality_score input).breakdown.ltv_score ≤ 25)
    ∧ (0 ≤ (calculate_reality_score input).breakdown.dsr_score
      ∧ (calculate_reality_score input).breakdown.dsr_score ≤ 25)
    ∧ (0 ≤ (calculate_reality_score input).breakdown.cash_gap_score
      ∧ (calculate_reality_score input).breakdown.cash_gap_score ≤ 25)
    ∧ (0 ≤ (calculate_reality_score input).breakdown.stability_score
      ∧ (calculate_reality_score input).breakdown.stability_score ≤ 25)
    ∧ (0 ≤ (calculate_reality_score input).score
      ∧ (calculate_reality_score input).score ≤ 100)
    ∧ (0 ≤ dsr_percentage input ∧ dsr_percentage input ≤ 100)
    ∧ (0 ≤ (calculate_reality_score input).analysis.dsr_percentage
      ∧ (calculate_reality_score input).analysis.dsr_percentage ≤ 100)
    ∧ ((calculate_reality_score input).region.max_ltv = 0
      ∨ (calculate_reality_score input).region.max_ltv = 30
      ∨ (calculate_reality_score input).region.max_ltv = 50
      ∨ (calculate_reality_score input).region.max_ltv = 60
      ∨ (calculate_reality_score input).region.max_ltv = 70) := by
  have h1 := ltv_score_nonneg input
  have h2 := ltv_score_le_25 input
  have h3 := dsr_score_nonneg input
  have h4 := dsr_score_le_25 input
  have h5 := cash_gap_score_nonneg hc
  have h6 := cash_gap_score_le_25 input
  have h7 := stability_score_nonneg input
  have h8 := stability_score_le_25 input
  have h9 := dsr_percentage_nonneg ha hd
  have h10 := dsr_percentage_le_100 input
  refine ⟨⟨h1, h2⟩, ⟨h3, h4⟩, ⟨h5, h6⟩, ⟨h7, h8⟩, ⟨?_, ?_⟩, ⟨h9, h10⟩,
    ⟨round2_nonneg h9, round2_le_100 h10⟩, get_ltv_limit_cases _ _ _⟩
  · show 0 ≤ total_score input
    unfold total_score
    linarith
  · show total_score input ≤ 100
    unfold total_score
    linarith

/-- Witness for C3 at a concrete valid input. -/
theorem C3_score_bounds_witness :
    ((0 : ℤ) < sample_input.target_price ∧ 0 ≤ sample_input.annual_income
      ∧ 0 ≤ sample_input.cash_available ∧ 0 ≤ sample_input.existing_debt
      ∧ 0 ≤ sample_input.house_count ∧ sample_input.house_count ≤ 10)
    ∧ ((0 ≤ (calculate_reality_score sample_input).breakdown.ltv_score
      ∧ (calculate_reality_score sample_input).breakdown.ltv_score ≤ 25)
    ∧ (0 ≤ (calculate_reality_score sample_input).breakdown.dsr_score
      ∧ (calculate_reality_score sample_input).breakdown.dsr_score ≤ 25)
    ∧ (0 ≤ (calculate_reality_score sample_input).breakdown.cash_gap_score
      ∧ (calculate_reality_score sample_input).breakdown.cash_gap_score ≤ 25)
    ∧ (0 ≤ (calculate_reality_score sample_input).breakdown.stability_score
      ∧ (calculate_reality_score sample_input).breakdown.stability_score ≤ 25)
    ∧ (0 ≤ (calculate_reality_score sample_input).score
      ∧ (calculate_reality_score sample_input).score ≤ 100)
    ∧ (0 ≤ dsr_percentage sample_input ∧ dsr_percentage sample_input ≤ 100)
    ∧ (0 ≤ (calculate_reality_score sample_input).analysis.dsr_percentage
      ∧ (calculate_reality_score sample_input).analysis.dsr_percentage ≤ 100)
    ∧ ((calculate_reality_score sample_input).region.max_ltv = 0
      ∨ (calculate_reality_score sample_input).region.max_ltv = 30
      ∨ (calculate_reality_score sample_input).region.max_ltv = 50
      ∨ (calculate_reality_score sample_input).region.max_ltv = 60
      ∨ (calculate_reality_score sample_input).region.max_ltv = 70)) :=
  ⟨by refine ⟨by decide, by decide, by decide, by decide, by decide, by decide⟩,
   C3_score_bounds sample_input (by decide) (by decide) (by decide) (by decide)
     (by decide) (by decide)⟩

/-- C10: for every input, the LTV sub-score is at most 17 (strictly below
its nominal cap of 25), hence the total score never exceeds 92 and a
perfect score of 100 is unreachable. -/
theorem C10_ltv_score_cap (input : RealityCheckInput) :
    (calculate_reality_score input).breakdown.ltv_score ≤ 17
    ∧ (calculate_reality_score input).score ≤ 92
    ∧ (calculate_reality_score input).score ≠ 100 := by
  have h17 := ltv_score_le_17 input
  have h92 : total_score input ≤ 92 := by
    have h4 := dsr_score_le_25 input
    have h6 := cash_gap_score_le_25 input
    have h8 := stability_score_le_25 input
    unfold total_score
    linarith
  exact ⟨h17, h92, by show total_score input ≠ 100; omega⟩

/-- C7: increasing `cash_available` while holding all else fixed never
decreases the cash-gap sub-score. -/
theorem C7_cash_gap_score_monotone (input : RealityCheckInput) (c2 : ℤ)
    (h : input.cash_available ≤ c2) :
    (calculate_reality_score input).breakdown.cash_gap_score
      ≤ (calculate_reality_score { input with cash_available := c2 }).breakdown.cash_gap_score := by
  show cash_gap_score input ≤ cash_gap_score { input with cash_available := c2 }
  set i2 : RealityCheckInput := { input with cash_available := c2 } with hi2
  have hreq : required_cash i2 = required_cash input := rfl
  by_cases hg2 : cash_gap i2 = 0
  · calc cash_gap_score input ≤ 25 := cash_gap_score_le_25 input
    _ = cash_gap_score i2 := by rw [cash_gap_score, if_pos hg2]
  · have hg1 : cash_gap input ≠ 0 := by
      have hmono : cash_gap i2 ≤ cash_gap input := by
        unfold cash_gap
        rw [hreq]
        have hca : i2.cash_available = c2 := rfl
        refine max_le_max le_rfl ?_
        omega
      have hpos : 0 < cash_gap i2 := lt_of_le_of_ne (le_max_left _ _) (Ne.symm hg2)
      omega
    rw [cash_gap_score, cash_gap_score, if_neg hg1, if_neg hg2]
    refine min_le_min le_rfl (pyInt_mono ?_)
    have hcov : coverage input ≤ coverage i2 := by
      unfold coverage
      rw [hreq]
      split
      · next hr =>
        have hr0 : (0 : ℚ) < (required_cash input : ℚ) := by exact_mod_cast hr
        have hcc : (input.cash_available : ℚ) ≤ (c2 : ℚ) := by exact_mod_cast h
        exact (div_le_div_iff_of_pos_right hr0).mpr hcc
      · exact le_rfl
    exact mul_le_mul_of_nonneg_right hcov (by norm_num)

/-- Witness for C7 at a concrete input and a larger cash amount. -/
theorem C7_cash_gap_score_monotone_witness :
    sample_input.cash_available ≤ 200000000
    ∧ (calculate_reality_score sample_input).breakdown.cash_gap_score
      ≤ (calculate_reality_score { sample_input with cash_available := 200000000 }).breakdown.cash_gap_score :=
  ⟨by decide, C7_cash_gap_score_monotone sample_input 200000000 (by decide)⟩

/-- C6 (amended): increasing `existing_debt` never increases the DSR
sub-score PROVIDED the LTV ceiling is the binding loan constraint
(`max_loan_by_ltv ≤ max_loan_by_dsr`) for both inputs.  Without that
proviso the claim fails: in the DSR-bound regime a larger debt shrinks the
loan by 200 times the debt increase, and the annuity payment saved
(≈ 0.0050668 per loan unit, more than the 0.005 proxy divisor) can exceed
the added debt, lowering the DSR and raising the sub-score. -/
theorem C6_dsr_score_monotone_when_ltv_binding (input : RealityCheckInput) (d2 : ℤ)
    (ha : 0 ≤ input.annual_income) (h : input.existing_debt ≤ d2)
    (hb1 : max_loan_ltv input ≤ max_loan_dsr input)
    (hb2 : max_loan_ltv { input with existing_debt := d2 }
      ≤ max_loan_dsr { input with existing_debt := d2 }) :
    (calculate_reality_score { input with existing_debt := d2 }).breakdown.dsr_score
      ≤ (calculate_reality_score input).breakdown.dsr_score := by
  show dsr_score { input with existing_debt := d2 } ≤ dsr_score input
  set i2 : RealityCheckInput := { input with existing_debt := d2 } with hi2
  have hmll : max_loan_ltv i2 = max_loan_ltv input := rfl
  have hml : max_loan i2 = max_loan input := by
    unfold max_loan
    rw [hmll, min_eq_left (hmll ▸ hb2), min_eq_left hb1]
  have hrep : monthly_repayment i2 = monthly_repayment input := by
    unfold monthly_repayment
    rw [hml]
  have hdsr : dsr_percentage input ≤ dsr_percentage i2 := by
    show calculate_dsr input.annual_income (total_monthly_debt input)
      ≤ calculate_dsr i2.annual_income (total_monthly_debt i2)
    have hann : i2.annual_income = input.annual_income := rfl
    have htd : total_monthly_debt input ≤ total_monthly_debt i2 := by
      unfold total_monthly_debt
      rw [hrep]
      have hde : i2.existing_debt = d2 := rfl
      omega
    rw [hann]
    exact calculate_dsr_mono ha htd
  unfold dsr_score dsr_headroom
  refine min_le_min le_rfl (pyInt_mono ?_)
  exact max_le_max le_rfl (by linarith)

/-- Witness for the amended C6 at a concrete LTV-bound input pair. -/
theorem C6_dsr_score_monotone_when_ltv_binding_witness :
    ((0 : ℤ) ≤ sample_input.annual_income
      ∧ sample_input.existing_debt ≤ 100000
      ∧ max_loan_ltv sample_input ≤ max_loan_dsr sample_input
      ∧ max_loan_ltv { sample_input with existing_debt := 100000 }
        ≤ max_loan_dsr { sample_input with existing_debt := 100000 })
    ∧ (calculate_reality_score { sample_input with existing_debt := 100000 }).breakdown.dsr_score
      ≤ (calculate_reality_score sample_input).breakdown.dsr_score := by
  have h1 : (0 : ℤ) ≤ sample_input.annual_income := by decide
  have h2 : sample_input.existing_debt ≤ 100000 := by decide
  have h3 : max_loan_ltv sample_input ≤ max_loan_dsr sample_input := by
    have hl : max_loan_ltv sample_input = 350000000 := by
      unfold max_loan_ltv
      have hltv : max_ltv sample_input = 70 := by decide
      rw [hltv]
      refine pyInt_eq_of_bounds (by norm_num) ?_ ?_ <;> norm_num [sample_input]
    have hd : max_loan_dsr sample_input = 400000000 := by
      unfold max_loan_dsr
      rw [if_pos ?_]
      · refine pyInt_eq_of_bounds (by norm_num) ?_ ?_ <;>
          norm_num [max_monthly_for_dsr, sample_input]
      · norm_num [max_monthly_for_dsr, sample_input]
    rw [hl, hd]
    norm_num
  have h4 : max_loan_ltv { sample_input with existing_debt := 100000 }
      ≤ max_loan_dsr { sample_input with existing_debt := 100000 } := by
    have hl : max_loan_ltv { sample_input with existing_debt := 100000 } = 350000000 := by
      unfold max_loan_ltv
      have hltv : max_ltv { sample_input with existing_debt := 100000 } = 70 := by decide
      rw [hltv]
      refine pyInt_eq_of_bounds (by norm_num) ?_ ?_ <;> norm_num [sample_input]
    have hd : max_loan_dsr { sample_input with existing_debt := 100000 } = 380000000 := by
      unfold max_loan_dsr
      rw [if_pos ?_]
      · refine pyInt_eq_of_bounds (by norm_num) ?_ ?_ <;>
          norm_num [max_monthly_for_dsr, sample_input]
      · norm_num [max_monthly_for_dsr, sample_input]
    rw [hl, hd]
    norm_num
  exact ⟨⟨h1, h2, h3, h4⟩,
    C6_dsr_score_monotone_when_ltv_binding sample_input 100000 h1 h2 h3 h4⟩

/-- Evaluation rule for `calculate_monthly_payment` at the default 4.5 %
rate and 30-year term: the result is `k` whenever the exact annuity value
lies in `[k, k + 1)`. -/
lemma calculate_monthly_payment_eval {l k : ℤ} (hl : 0 < l) (hk : 0 ≤ k)
    (h1 : (k : ℚ) ≤ (l : ℚ) * ((4.5 : ℚ) / 100 / 12 * (1 + (4.5 : ℚ) / 100 / 12) ^ (360 : ℕ))
      / ((1 + (4.5 : ℚ) / 100 / 12) ^ (360 : ℕ) - 1))
    (h2 : (l : ℚ) * ((4.5 : ℚ) / 100 / 12 * (1 + (4.5 : ℚ) / 100 / 12) ^ (360 : ℕ))
      / ((1 + (4.5 : ℚ) / 100 / 12) ^ (360 : ℕ) - 1) < (k : ℚ) + 1) :
    calculate_monthly_payment l = k := by
  simp only [calculate_monthly_payment]
  rw [if_neg (not_le.mpr hl), if_neg (by norm_num : ¬((4.5 : ℚ) / 100 / 12 = 0))]
  have hexp : (30 * 12 : ℕ) = (360 : ℕ) := rfl
  rw [hexp]
  exact pyInt_eq_of_bounds hk h1 h2

/-- The low-debt input of the C6 counterexample: unknown region (LTV 70),
price 10,000, annual income 504, no cash, no existing debt. -/
def c6_low : RealityCheckInput := ⟨("x"), 10000, 504, 0, 0, true, 0⟩

/-- The same input with existing monthly debt raised from 0 to 2. -/
def c6_high : RealityCheckInput := ⟨("x"), 10000, 504, 0, 2, true, 0⟩

/-- C6 counterexample: the two inputs are identical except that
`existing_debt` rises from 0 to 2, yet the DSR sub-score rises from 0 to 1,
refuting the claim that increasing existing debt never increases
`dsr_score`.  (Debt 0: loan 3360, repayment 17, DSR 850/21 > 40, headroom
0.  Debt 2: loan 2960, repayment 14, total debt 16, DSR 800/21 ≈ 38.1,
headroom 40/21, sub-score 1.) -/
theorem C6_counterexample :
    c6_high.region = c6_low.region
    ∧ c6_high.target_price = c6_low.target_price
    ∧ c6_high.annual_income = c6_low.annual_income
    ∧ c6_high.cash_available = c6_low.cash_available
    ∧ c6_high.is_first_home = c6_low.is_first_home
    ∧ c6_high.house_count = c6_low.house_count
    ∧ c6_low.existing_debt < c6_high.existing_debt
    ∧ (calculate_reality_score c6_low).breakdown.dsr_score = 0
    ∧ (calculate_reality_score c6_high).breakdown.dsr_score = 1 := by
  refine ⟨rfl, rfl, rfl, rfl, rfl, rfl, by decide, ?_, ?_⟩
  · show dsr_score c6_low = 0
    have hltv : max_ltv c6_low = 70 := by decide
    have hmll : max_loan_ltv c6_low = 7000 := by
      unfold max_loan_ltv
      rw [hltv]
      refine pyInt_eq_of_bounds (by norm_num) ?_ ?_ <;> norm_num [c6_low]
    have hmld : max_loan_dsr c6_low = 3360 := by
      unfold max_loan_dsr
      rw [if_pos (by norm_num [max_monthly_for_dsr, c6_low])]
      refine pyInt_eq_of_bounds (by norm_num) ?_ ?_ <;>
        norm_num [max_monthly_for_dsr, c6_low]
    have hml : max_loan c6_low = 3360 := by
      unfold max_loan
      rw [hmll, hmld]
      norm_num
    have hrep : monthly_repayment c6_low = 17 := by
      unfold monthly_repayment
      rw [hml]
      refine calculate_monthly_payment_eval (by norm_num) (by norm_num) ?_ ?_ <;> norm_num
    have hdsr : dsr_percentage c6_low = 850 / 21 := by
      unfold dsr_percentage total_monthly_debt
      rw [hrep]
      simp only [calculate_dsr, c6_low]
      rw [if_neg (by norm_num)]
      rw [min_eq_left (by norm_num)]
      norm_num
    unfold dsr_score dsr_headroom
    rw [hdsr]
    rw [max_eq_left (by norm_num)]
    rw [show pyInt 0 = 0 from pyInt_eq_of_bounds le_rfl (by norm_num) (by norm_num)]
    norm_num
  · show dsr_score c6_high = 1
    have hltv : max_ltv c6_high = 70 := by decide
    have hmll : max_loan_ltv c6_high = 7000 := by
      unfold max_loan_ltv
      rw [hltv]
      refine pyInt_eq_of_bounds (by norm_num) ?_ ?_ <;> norm_num [c6_high]
    have hmld : max_loan_dsr c6_high = 2960 := by
      unfold max_loan_dsr
      rw [if_pos (by norm_num [max_monthly_for_dsr, c6_high])]
      refine pyInt_eq_of_bounds (by norm_num) ?_ ?_ <;>
        norm_num [max_monthly_for_dsr, c6_high]
    have hml : max_loan c6_high = 2960 := by
      unfold max_loan
      rw [hmll, hmld]
      norm_num
    have hrep : monthly_repayment c6_high = 14 := by
      unfold monthly_repayment
      rw [hml]
      refine calculate_monthly_payment_eval (by norm_num) (by norm_num) ?_ ?_ <;> norm_num
    have hdsr : dsr_percentage c6_high = 800 / 21 := by
      unfold dsr_percentage total_monthly_debt
      rw [hrep]
      simp only [calculate_dsr, c6_high]
      rw [if_neg (by norm_num)]
      rw [min_eq_left (by norm_num)]
      norm_num
    unfold dsr_score dsr_headroom
    rw [hdsr]
    rw [show pyInt (max 0 (40 - 800 / 21)) = 1 from ?_]
    · norm_num
    · rw [max_eq_right (by norm_num)]
      exact pyInt_eq_of_bounds (by norm_num) (by norm_num) (by norm_num)

/-- The exact-arithmetic monthly payment on a 250,000,000 KRW principal at
the default 4.5 % rate over 30 years. -/
lemma payment_250M_eq : calculate_monthly_payment 250000000 4.5 30 = 1266713 :=
  calculate_monthly_payment_eval (by norm_num) (by norm_num) (by norm_num) (by norm_num)

/-- C4 (amended): `calculate_monthly_payment` returns 0 for a non-positive
principal, the straight-line `floor(principal / (years * 12))` when the
monthly rate is 0 (and the term is non-empty), and otherwise the floor of
the standard fixed-rate annuity payment with `r = (rate/100)/12` and
`n = years * 12`; at principal 250,000,000, rate 4.5 % and 30 years the
payment is 1,266,713 (not ≈ 1,266,957 as the specification's example
states). -/
theorem C4_monthly_payment :
    (∀ (l : ℤ) (r : ℚ) (y : ℕ), l ≤ 0 → calculate_monthly_payment l r y = 0)
    ∧ (∀ (l : ℤ) (y : ℕ), 0 < l → y ≠ 0 →
        calculate_monthly_payment l 0 y = ⌊(l : ℚ) / ((y * 12 : ℕ) : ℚ)⌋)
    ∧ (∀ (l : ℤ) (r : ℚ) (y : ℕ), 0 < l → 0 < r →
        calculate_monthly_payment l r y
          = ⌊(l : ℚ) * (r / 100 / 12 * (1 + r / 100 / 12) ^ (y * 12))
              / ((1 + r / 100 / 12) ^ (y * 12) - 1)⌋)
    ∧ calculate_monthly_payment 250000000 4.5 30 = 1266713 := by
  refine ⟨?_, ?_, ?_, payment_250M_eq⟩
  · intro l r y hl
    simp only [calculate_monthly_payment]
    rw [if_pos hl]
  · intro l y hl hy
    simp only [calculate_monthly_payment]
    rw [if_neg (not_le.mpr hl), if_pos (by norm_num)]
    apply pyInt_eq_floor
    have h1 : (0 : ℚ) ≤ (l : ℚ) := by exact_mod_cast hl.le
    have h2 : (0 : ℚ) ≤ ((y * 12 : ℕ) : ℚ) := by positivity
    positivity
  · intro l r y hl hr
    simp only [calculate_monthly_payment]
    have hr12 : (0 : ℚ) < r / 100 / 12 := by positivity
    rw [if_neg (not_le.mpr hl), if_neg hr12.ne']
    apply pyInt_eq_floor
    have hA1 : (1 : ℚ) ≤ (1 + r / 100 / 12) ^ (y * 12) :=
      one_le_pow₀ (by linarith)
    have hnum : (0 : ℚ) ≤ (l : ℚ) * (r / 100 / 12 * (1 + r / 100 / 12) ^ (y * 12)) := by
      have h1 : (0 : ℚ) ≤ (l : ℚ) := by exact_mod_cast hl.le
      positivity
    exact div_nonneg hnum (by linarith)

/-- Witness for C4 instantiating each guarded branch at concrete inputs. -/
theorem C4_monthly_payment_witness :
    calculate_monthly_payment (-5) 4.5 30 = 0
    ∧ calculate_monthly_payment 120 0 1 = ⌊(120 : ℚ) / ((1 * 12 : ℕ) : ℚ)⌋
    ∧ calculate_monthly_payment 120 6 1
        = ⌊(120 : ℚ) * ((6 : ℚ) / 100 / 12 * (1 + (6 : ℚ) / 100 / 12) ^ (1 * 12))
            / ((1 + (6 : ℚ) / 100 / 12) ^ (1 * 12) - 1)⌋
    ∧ calculate_monthly_payment 250000000 4.5 30 = 1266713 :=
  ⟨C4_monthly_payment.1 (-5) 4.5 30 (by norm_num),
   C4_monthly_payment.2.1 120 1 (by norm_num) (by norm_num),
   C4_monthly_payment.2.2.1 120 6 1 (by norm_num) (by norm_num),
   C4_monthly_payment.2.2.2⟩

/-- C4 counterexample: at the specification's own example input the code's
payment is 1,266,713, which is not within rounding distance (taken
generously as ± 2) of the claimed ≈ 1,266,957. -/
theorem C4_counterexample :
    calculate_monthly_payment 250000000 4.5 30 = 1266713
    ∧ ¬(1266955 ≤ calculate_monthly_payment 250000000 4.5 30
        ∧ calculate_monthly_payment 250000000 4.5 30 ≤ 1266959) := by
  refine ⟨payment_250M_eq, ?_⟩
  rw [payment_250M_eq]
  omega

/-- C5: the risks list contains each typed item exactly when its rule
applies and at most once (the list is duplicate-free): the critical DSR
item iff the DSR percentage exceeds 40, the warning DSR item iff it lies in
(35, 40] (the `elif` makes the two mutually exclusive), the cash-shortfall
item iff the cash gap is positive, the no-loan item iff the resolved max
LTV is 0, the speculative-zone info item iff the region is speculative, the
success item iff the total score is at least 70; and when no rule applies
the list is empty, a valid result. -/
theorem C5_risk_rules (input : RealityCheckInput) :
    ((calculate_reality_score input).risks).Nodup
    ∧ ((⟨("critical"), ("DSR Limit Exceeded")⟩ : RiskItem)
        ∈ (calculate_reality_score input).risks ↔ 40 < dsr_percentage input)
    ∧ ((⟨("warning"), ("DSR Near Limit")⟩ : RiskItem)
        ∈ (calculate_reality_score input).risks
        ↔ 35 < dsr_percentage input ∧ dsr_percentage input ≤ 40)
    ∧ ((⟨("critical"), ("Cash Shortfall")⟩ : RiskItem)
        ∈ (calculate_reality_score input).risks ↔ 0 < cash_gap input)
    ∧ ((⟨("critical"), ("No Loan Available")⟩ : RiskItem)
        ∈ (calculate_reality_score input).risks ↔ max_ltv input = 0)
    ∧ ((⟨("info"), ("Speculative Overheated Zone")⟩ : RiskItem)
        ∈ (calculate_reality_score input).risks
        ↔ (region_config input.region).speculative = true)
    ∧ ((⟨("success"), ("Good Financial Position")⟩ : RiskItem)
        ∈ (calculate_reality_score input).risks ↔ 70 ≤ total_score input)
    ∧ (dsr_percentage input ≤ 35 → cash_gap input = 0 → max_ltv input ≠ 0 →
        (region_config input.region).speculative = false →
        total_score input < 70 → (calculate_reality_score input).risks = []) := by
  have hr : (calculate_reality_score input).risks = risks input := rfl
  rw [hr]
  unfold risks
  split_ifs with h1 h2 h3 h4 h5 h6 <;> simp_all <;> intros <;>
    first | rfl | omega | linarith

/-- Witness for C5 at a concrete input. -/
theorem C5_risk_rules_witness :
    ((calculate_reality_score sample_input).risks).Nodup
    ∧ ((⟨("critical"), ("DSR Limit Exceeded")⟩ : RiskItem)
        ∈ (calculate_reality_score sample_input).risks ↔ 40 < dsr_percentage sample_input)
    ∧ ((⟨("warning"), ("DSR Near Limit")⟩ : RiskItem)
        ∈ (calculate_reality_score sample_input).risks
        ↔ 35 < dsr_percentage sample_input ∧ dsr_percentage sample_input ≤ 40)
    ∧ ((⟨("critical"), ("Cash Shortfall")⟩ : RiskItem)
        ∈ (calculate_reality_score sample_input).risks ↔ 0 < cash_gap sample_input)
    ∧ ((⟨("critical"), ("No Loan Available")⟩ : RiskItem)
        ∈ (calculate_reality_score sample_input).risks ↔ max_ltv sample_input = 0)
    ∧ ((⟨("info"), ("Speculative Overheated Zone")⟩ : RiskItem)
        ∈ (calculate_reality_score sample_input).risks
        ↔ (region_config sample_input.region).speculative = true)
    ∧ ((⟨("success"), ("Good Financial Position")⟩ : RiskItem)
        ∈ (calculate_reality_score sample_input).risks ↔ 70 ≤ total_score sample_input)
    ∧ (dsr_percentage sample_input ≤ 35 → cash_gap sample_input = 0 →
        max_ltv sample_input ≠ 0 →
        (region_config sample_input.region).speculative = false →
        total_score sample_input < 70 → (calculate_reality_score sample_input).risks = []) :=
  C5_risk_rules sample_input

/-- C8: with `wait_years = 0` the projection of `compare_scenarios` is a
no-op — future price, income and cash equal the base values and the
accumulated savings are 0 — so the buy-now and buy-later blocks agree on
score, grade, target price, max loan, monthly payment and cash gap, and the
recommendation is "buy_now"; in general the recommendation is "buy_now"
exactly when the buy-now score is at least the buy-later score (ties go to
buying now). -/
theorem C8_zero_wait_noop (s : ScenarioCompareInput) (h0 : s.wait_years = 0) :
    future_price s = s.base.target_price
    ∧ future_income s = s.base.annual_income
    ∧ future_cash s = s.base.cash_available
    ∧ additional_savings s = 0
    ∧ (compare_scenarios s).buy_later = (compare_scenarios s).buy_now
    ∧ (compare_scenarios s).savings_gained = 0
    ∧ (compare_scenarios s).recommendation = ("buy_now")
    ∧ (∀ t : ScenarioCompareInput, (compare_scenarios t).recommendation = ("buy_now")
        ↔ (calculate_reality_score (later_input t)).score
          ≤ (calculate_reality_score t.base).score) := by
  have hfp : future_price s = s.base.target_price := by
    unfold future_price
    rw [h0, pow_zero, mul_one, pyInt_intCast]
  have hfi : future_income s = s.base.annual_income := by
    unfold future_income
    rw [h0, pow_zero, mul_one, pyInt_intCast]
  have hsav : additional_savings s = 0 := by
    unfold additional_savings
    rw [h0]
    norm_num
  have hfc : future_cash s = s.base.cash_available := by
    unfold future_cash
    rw [hsav]
    exact add_zero _
  have hli : later_input s = s.base := by
    unfold later_input
    rw [hfp, hfi, hfc]
  have hrec : ∀ t : ScenarioCompareInput,
      (compare_scenarios t).recommendation = ("buy_now")
      ↔ (calculate_reality_score (later_input t)).score
        ≤ (calculate_reality_score t.base).score := by
    intro t
    show (if (calculate_reality_score (later_input t)).score
          ≤ (calculate_reality_score t.base).score
        then ("buy_now") else ("wait")) = ("buy_now") ↔ _
    split
    · next hc => exact iff_of_true rfl hc
    · next hc => exact iff_of_false (by decide) hc
  refine ⟨hfp, hfi, hfc, hsav, ?_, hsav, ?_, hrec⟩
  · show ScenarioSummary.mk _ _ _ _ _ _ = ScenarioSummary.mk _ _ _ _ _ _
    rw [hli, hfp]
  · rw [hrec s, hli]

/-- A concrete scenario input with zero wait used to witness C8. -/
def c8_scenario : ScenarioCompareInput := ⟨sample_input, 0, 3, 2, 30, 0⟩

/-- Witness for C8 at a concrete zero-wait scenario. -/
theorem C8_zero_wait_noop_witness :
    c8_scenario.wait_years = 0
    ∧ (future_price c8_scenario = c8_scenario.base.target_price
      ∧ future_income c8_scenario = c8_scenario.base.annual_income
      ∧ future_cash c8_scenario = c8_scenario.base.cash_available
      ∧ additional_savings c8_scenario = 0
      ∧ (compare_scenarios c8_scenario).buy_later = (compare_scenarios c8_scenario).buy_now
      ∧ (compare_scenarios c8_scenario).savings_gained = 0
      ∧ (compare_scenarios c8_scenario).recommendation = ("buy_now")
      ∧ (∀ t : ScenarioCompareInput, (compare_scenarios t).recommendation = ("buy_now")
          ↔ (calculate_reality_score (later_input t)).score
            ≤ (calculate_reality_score t.base).score)) :=
  ⟨rfl, C8_zero_wait_noop c8_scenario rfl⟩

lemma calculate_monthly_paymentChecked_eq (l : ℤ) :
    calculate_monthly_paymentChecked l = some (calculate_monthly_payment l) := by
  simp only [calculate_monthly_paymentChecked, calculate_monthly_payment]
  split
  · rfl
  · rw [if_neg (by norm_num : ¬((4.5 : ℚ) / 100 / 12 = 0)),
      if_neg (by norm_num : ¬((4.5 : ℚ) / 100 / 12 = 0))]
    have hA : (1 : ℚ) < (1 + (4.5 : ℚ) / 100 / 12) ^ (30 * 12 : ℕ) := by
      refine one_lt_pow₀ ?_ (by norm_num)
      norm_num
    have hden : (1 + (4.5 : ℚ) / 100 / 12) ^ (30 * 12 : ℕ) - 1 ≠ 0 := by
      intro hzero
      rw [sub_eq_zero] at hzero
      exact absurd hzero.symm hA.ne
    rw [divChecked, if_neg hden]
    rfl

lemma calculate_dsrChecked_eq (a d : ℤ) :
    calculate_dsrChecked a d = some (calculate_dsr a d) := by
  simp only [calculate_dsrChecked, calculate_dsr]
  split
  · rfl
  · next h =>
    rw [divChecked, if_neg h]
    rfl

lemma calculate_reality_scoreChecked_eq {input : RealityCheckInput}
    (hp : 0 < input.target_price) :
    calculate_reality_scoreChecked input = some (calculate_reality_score input) := by
  have hpne : ((input.target_price : ℚ)) ≠ 0 := by
    exact_mod_cast hp.ne'
  by_cases hg : cash_gap input = 0 <;> by_cases hreq : 0 < required_cash input <;>
    by_cases hann : 0 < input.annual_income
  · simp [calculate_reality_scoreChecked, calculate_monthly_paymentChecked_eq,
      calculate_dsrChecked_eq, divChecked, hg, hreq, hann, hpne,
      (by exact_mod_cast hreq.ne' : ((required_cash input : ℚ)) ≠ 0),
      (by exact_mod_cast hann.ne' : ((input.annual_income : ℚ)) ≠ 0),
      calculate_reality_score, ltv_score, ltv_utilization, dsr_score, dsr_headroom,
      cash_gap_score, coverage, stability_score, price_to_income, total_score,
      dsr_percentage, total_monthly_debt, monthly_repayment, hp]
  · simp [calculate_reality_scoreChecked, calculate_monthly_paymentChecked_eq,
      calculate_dsrChecked_eq, divChecked, hg, hreq, hann, hpne,
      (by exact_mod_cast hreq.ne' : ((required_cash input : ℚ)) ≠ 0),
      calculate_reality_score, ltv_score, ltv_utilization, dsr_score, dsr_headroom,
      cash_gap_score, coverage, stability_score, price_to_income, total_score,
      dsr_percentage, total_monthly_debt, monthly_repayment, hp]
  · simp [calculate_reality_scoreChecked, calculate_monthly_paymentChecked_eq,
      calculate_dsrChecked_eq, divChecked, hg, hreq, hann, hpne,
      (by exact_mod_cast hann.ne' : ((input.annual_income : ℚ)) ≠ 0),
      calculate_reality_score, ltv_score, ltv_utilization, dsr_score, dsr_headroom,
      cash_gap_score, coverage, stability_score, price_to_income, total_score,
      dsr_percentage, total_monthly_debt, monthly_repayment, hp]
  · simp [calculate_reality_scoreChecked, calculate_monthly_paymentChecked_eq,
      calculate_dsrChecked_eq, divChecked, hg, hreq, hann, hpne,
      calculate_reality_score, ltv_score, ltv_utilization, dsr_score, dsr_headroom,
      cash_gap_score, coverage, stability_score, price_to_income, total_score,
      dsr_percentage, total_monthly_debt, monthly_repayment, hp]
  · simp [calculate_reality_scoreChecked, calculate_monthly_paymentChecked_eq,
      calculate_dsrChecked_eq, divChecked, hg, hreq, hann, hpne,
      (by exact_mod_cast hreq.ne' : ((required_cash input : ℚ)) ≠ 0),
      (by exact_mod_cast hann.ne' : ((input.annual_income : ℚ)) ≠ 0),
      calculate_reality_score, ltv_score, ltv_utilization, dsr_score, dsr_headroom,
      cash_gap_score, coverage, stability_score, price_to_income, total_score,
      dsr_percentage, total_monthly_debt, monthly_repayment, hp]
  · simp [calculate_reality_scoreChecked, calculate_monthly_paymentChecked_eq,
      calculate_dsrChecked_eq, divChecked, hg, hreq, hann, hpne,
      (by exact_mod_cast hreq.ne' : ((required_cash input : ℚ)) ≠ 0),
      calculate_reality_score, ltv_score, ltv_utilization, dsr_score, dsr_headroom,
      cash_gap_score, coverage, stability_score, price_to_income, total_score,
      dsr_percentage, total_monthly_debt, monthly_repayment, hp]
  · simp [calculate_reality_scoreChecked, calculate_monthly_paymentChecked_eq,
      calculate_dsrChecked_eq, divChecked, hg, hreq, hann, hpne,
      (by exact_mod_cast hann.ne' : ((input.annual_income : ℚ)) ≠ 0),
      calculate_reality_score, ltv_score, ltv_utilization, dsr_score, dsr_headroom,
      cash_gap_score, coverage, stability_score, price_to_income, total_score,
      dsr_percentage, total_monthly_debt, monthly_repayment, hp]
  · simp [calculate_reality_scoreChecked, calculate_monthly_paymentChecked_eq,
      calculate_dsrChecked_eq, divChecked, hg, hreq, hann, hpne,
      calculate_reality_score, ltv_score, ltv_utilization, dsr_score, dsr_headroom,
      cash_gap_score, coverage, stability_score, price_to_income, total_score,
      dsr_percentage, total_monthly_debt, monthly_repayment, hp]

/-- C9: on every input satisfying the schema invariants the engine is
total and defensive: the variant with every variable-denominator division
checked returns `some` of the unchecked result (every division is guarded
— an annual income of zero yields DSR percentage 100 and the worst-case
price-to-income ratio 20 instead of dividing by zero, and the coverage
division only occurs when `required_cash > 0`), and no returned score
field is negative. -/
theorem C9_total_and_defensive (input : RealityCheckInput)
    (hp : 0 < input.target_price) (ha : 0 ≤ input.annual_income)
    (hc : 0 ≤ input.cash_available) (hd : 0 ≤ input.existing_debt)
    (hh0 : 0 ≤ input.house_count) (hh10 : input.house_count ≤ 10) :
    calculate_reality_scoreChecked input = some (calculate_reality_score input)
    ∧ (input.annual_income = 0 →
        dsr_percentage input = 100 ∧ price_to_income input = 20)
    ∧ 0 ≤ (calculate_reality_score input).score
    ∧ 0 ≤ (calculate_reality_score input).breakdown.ltv_score
    ∧ 0 ≤ (calculate_reality_score input).breakdown.dsr_score
    ∧ 0 ≤ (calculate_reality_score input).breakdown.cash_gap_score
    ∧ 0 ≤ (calculate_reality_score input).breakdown.stability_score := by
  refine ⟨calculate_reality_scoreChecked_eq hp, ?_, ?_, ltv_score_nonneg input,
    dsr_score_nonneg input, cash_gap_score_nonneg hc, stability_score_nonneg input⟩
  · intro hzero
    constructor
    · simp [dsr_percentage, calculate_dsr, hzero]
    · simp [price_to_income, hzero]
  · show 0 ≤ total_score input
    have h1 := ltv_score_nonneg input
    have h3 := dsr_score_nonneg input
    have h5 := cash_gap_score_nonneg hc
    have h7 := stability_score_nonneg input
    unfold total_score
    linarith

/-- Witness for C9 at a concrete valid input (one with zero income, which
exercises both division guards). -/
theorem C9_total_and_defensive_witness :
    ((0 : ℤ) < 1000 ∧ (0 : ℤ) ≤ 0 ∧ (0 : ℤ) ≤ 0 ∧ (0 : ℤ) ≤ 0
      ∧ (0 : ℤ) ≤ 0 ∧ (0 : ℤ) ≤ 10)
    ∧ (calculate_reality_scoreChecked ⟨("x"), 1000, 0, 0, 0, true, 0⟩
        = some (calculate_reality_score ⟨("x"), 1000, 0, 0, 0, true, 0⟩)
      ∧ ((⟨("x"), 1000, 0, 0, 0, true, 0⟩ : RealityCheckInput).annual_income = 0 →
          dsr_percentage ⟨("x"), 1000, 0, 0, 0, true, 0⟩ = 100
          ∧ price_to_income ⟨("x"), 1000, 0, 0, 0, true, 0⟩ = 20)
      ∧ 0 ≤ (calculate_reality_score ⟨("x"), 1000, 0, 0, 0, true, 0⟩).score
      ∧ 0 ≤ (calculate_reality_score ⟨("x"), 1000, 0, 0, 0, true, 0⟩).breakdown.ltv_score
      ∧ 0 ≤ (calculate_reality_score ⟨("x"), 1000, 0, 0, 0, true, 0⟩).breakdown.dsr_score
      ∧ 0 ≤ (calculate_reality_score ⟨("x"), 1000, 0, 0, 0, true, 0⟩).breakdown.cash_gap_score
      ∧ 0 ≤ (calculate_reality_score ⟨("x"), 1000, 0, 0, 0, true, 0⟩).breakdown.stability_score) :=
  ⟨⟨by decide, by decide, by decide, by decide, by decide, by decide⟩,
   C9_total_and_defensive ⟨("x"), 1000, 0, 0, 0, true, 0⟩ (by decide) (by decide)
     (by decide) (by decide) (by decide) (by decide)⟩
